import Mathlib

/-
  Verification development for the Decision Engine channel/source supervisor
  (decisionengine/framework/engine/DecisionEngine.py).

  The Python supervisor is shallowly embedded: the registries become
  association lists, worker processes become records carrying the
  observations the supervisor can make of them (is_alive, exitcode, and the
  exit code that would be observed after a take_offline/join phase), and the
  external collaborators that live outside the embedded file (the source
  registry's update, the workflow validator, the channel-config loader, the
  datablock rendering used by print_product) become function-valued fields of
  the server state, so that the control flow of the embedded functions, and
  the traces of externally visible actions they perform, mirror the source.
-/

deriving instance DecidableEq for Except

namespace DE

/-- Observation of a channel worker process (ChannelWorker wrapping its
TaskManager).  `alive` and `exitcode` are the current `is_alive()` /
`exitcode` observations; `exitAfterJoin` is the exit code that the parent
would observe after `task_manager.take_offline()` followed by
`join(timeout)` (an abstraction of the environment: the process either
exits during the join, yielding `some code`, or survives it, yielding
`none`).  `loglevel` is `task_manager.get_loglevel()`; `produces` is
`get_produces()`; `routing_keys` is `task_manager.routing_keys`. -/
structure Worker where
  alive : Bool
  exitcode : Option Int
  exitAfterJoin : Option Int
  routing_keys : List String
  loglevel : Int
  produces : List (String × List String)
deriving DecidableEq

/-- Observation of a shared source worker process, as used by
`start_channel`: the key under which it appears in the `src_workers`
mapping, `is_alive()` and `exitcode`. -/
structure SrcWorker where
  key : String
  alive : Bool
  exitcode : Option Int
deriving DecidableEq

/-- A channel configuration after JSON/Jsonnet loading: the optional
`channel_name` override, the `sources` entry that `start_channel` pops
(each source config kept opaque as a string), and the opaque remainder
(transforms, logic, publishers). -/
structure ChannelConfig where
  channel_name : Option String
  sources : List String
  rest : String
deriving DecidableEq

/-- Python exceptions that can escape the rpc_ methods we embed. -/
inductive PyErr where
  | valueError (msg : String)
  | typeError (msg : String)
  | attributeError (msg : String)
  | runtimeError (msg : String)
deriving DecidableEq

/-- The result classification of `stop_worker` (enum StopState). -/
inductive StopState where
  | NotFound
  | Clean
  | Terminated
deriving DecidableEq

/-- Externally visible process actions performed by `stop_worker`. -/
inductive StopAction where
  | takeOffline
  | join (t : Option Nat)
  | terminate
deriving DecidableEq

/-- Externally visible events of `start_channel`: inserting the channel
worker into the registry, starting it, the blocking waits on its state
cell, and starting a source worker. -/
inductive ChState where
  | BOOT
  | ACTIVE
  | STEADY
  | OFFLINE
  | SHUTTINGDOWN
  | SHUTDOWN
  | ERROR
deriving DecidableEq

/-- Rendering of a ProcessingState.State enum member as Python's f-string
interpolation produces it (`str(State.BOOT) = "State.BOOT"`). -/
def stateRepr (st : ChState) : String :=
  "State." ++ (match st with
    | ChState.BOOT => "BOOT"
    | ChState.ACTIVE => "ACTIVE"
    | ChState.STEADY => "STEADY"
    | ChState.OFFLINE => "OFFLINE"
    | ChState.SHUTTINGDOWN => "SHUTTINGDOWN"
    | ChState.SHUTDOWN => "SHUTDOWN"
    | ChState.ERROR => "ERROR")

inductive Ev where
  | insertChannel (name : String)
  | startWorker (name : String)
  | waitWhile (name : String) (st : ChState)
  | startSource (key : String)
deriving DecidableEq

/-- Events of the rpc_start_channel wrapper: loading the channel's
configuration, and delegating to start_channel. -/
inductive RpcEv where
  | loadChannelCfg (name : String)
  | startChannelCall (name : String)
deriving DecidableEq

/-- Association-list lookup, modelling Python dict `.get` on the
insertion-ordered registries. -/
def alookup {α : Type} : List (String × α) → String → Option α
  | [], _ => Option.none
  | (k, v) :: rest, key => if k = key then some v else alookup rest key

/-- Association-list update, modelling Python dict assignment
`d[k] = v` (replaces in place, or appends a new entry). -/
def assocSet {α : Type} : List (String × α) → String → α → List (String × α)
  | [], k, v => [(k, v)]
  | (k0, v0) :: rest, k, v =>
    if k0 = k then (k, v) :: rest else (k0, v0) :: assocSet rest k v

/-- Association-list removal, modelling Python `del d[k]`. -/
def removeKey {α : Type} : List (String × α) → String → List (String × α)
  | [], _ => []
  | (k0, v0) :: rest, k =>
    if k0 = k then rest else (k0, v0) :: removeKey rest k

/-- The supervisor state (class DecisionEngine).  The channel registry and
the source registry are association lists; the collaborators defined in
other modules of the repository are function-valued fields applied exactly
where the source calls them:
`sourceUpdate` is `SourceWorkers.update` (returns the updated source
registry and the per-key worker list), `validateWorkflow` is
`validated_workflow` (raising is returning `.error`), `pruneFn` is
`SourceWorkers.prune`, `loadChannel` is
`channel_config_loader.load_channel` (`.error msg` is the
`(False, msg)` outcome), `channelConfigs` is the loader's channel map
after `load_all_channels`, `renderProduct` is the datablock-rendering
try-block of rpc_print_product (whose internal exceptions the source
catches and folds into the returned text), and `shutdownTimeout` is
`global_config["shutdown_timeout"]` when present. -/
structure DEServer where
  channel_workers : List (String × Worker)
  source_workers : List (String × SrcWorker)
  sourceUpdate : String → List String → List (String × SrcWorker) →
    List (String × SrcWorker) × List SrcWorker
  validateWorkflow : String → List SrcWorker → ChannelConfig → Except String Unit
  pruneFn : String → List String → List (String × SrcWorker) → List (String × SrcWorker)
  loadChannel : String → Except String ChannelConfig
  channelConfigs : List (String × ChannelConfig)
  renderProduct : String → String → Option String → Option String → Bool →
    Option String → String
  shutdownTimeout : Option Nat

/-- The exit code observed after the conditional offline/join phase of
`stop_worker`: when the worker is alive the phase runs and yields
`exitAfterJoin`; when it is not alive the phase is skipped and the current
`exitcode` stands. -/
def postJoinExit (w : Worker) : Option Int :=
  if w.alive then w.exitAfterJoin else w.exitcode

/-- stop_worker(worker, timeout): if alive, take_offline then
join(timeout); if the exit code is then still None, terminate and report
Terminated, else report Clean.  The actions list records the process
operations performed, in order. -/
def stop_worker (w : Worker) (t : Option Nat) : StopState × List StopAction :=
  if w.alive then
    if w.exitAfterJoin = Option.none then
      (StopState.Terminated, [StopAction.takeOffline, StopAction.join t, StopAction.terminate])
    else
      (StopState.Clean, [StopAction.takeOffline, StopAction.join t])
  else
    if w.exitcode = Option.none then
      (StopState.Terminated, [StopAction.terminate])
    else
      (StopState.Clean, [])

/-- rm_channel(channel, maybe_timeout): look the worker up in the channel
registry (NotFound when absent); otherwise snapshot its routing keys, stop
it, delete the registry entry, and prune the snapshot from the source
registry. -/
def rm_channel (s : DEServer) (channel : String) (mt : Option Nat) :
    StopState × DEServer :=
  match alookup s.channel_workers channel with
  | Option.none => (StopState.NotFound, s)
  | some worker =>
    let sources_to_prune := worker.routing_keys
    let rc := (stop_worker worker mt).1
    let workers1 := removeKey s.channel_workers channel
    let srcReg1 := s.pruneFn channel sources_to_prune s.source_workers
    (rc, { s with channel_workers := workers1, source_workers := srcReg1 })

/-- The message of the TypeError Python raises when evaluating
`None > 1` in rpc_rm_channel. -/
def noneGtIntMsg : String :=
  "\x27>\x27 not supported between instances of \x27NoneType\x27 and \x27int\x27"

/-- rpc_rm_channel(channel, maybe_timeout): runs rm_channel and renders
the result.  For a Terminated result the source first compares
`maybe_timeout == 0` (false for None) and then evaluates
`maybe_timeout > 1` to pick the plural suffix; with a None timeout that
comparison raises TypeError, which this embedding returns as `.error`. -/
def rpc_rm_channel (s : DEServer) (channel : String) (mt : Option Nat) :
    Except PyErr String × DEServer :=
  let r := rm_channel s channel mt
  match r.1 with
  | StopState.NotFound =>
    (Except.ok ("No channel found with the name " ++ channel ++ "."), r.2)
  | StopState.Terminated =>
    match mt with
    | some 0 => (Except.ok ("Channel " ++ channel ++ " has been killed."), r.2)
    | some t =>
      let suffix := if 1 < t then "s" else ""
      (Except.ok ("Channel " ++ channel ++ " has been killed due to shutdown timeout ("
        ++ toString t ++ " second" ++ suffix ++ ")."), r.2)
    | Option.none => (Except.error (PyErr.typeError noneGtIntMsg), r.2)
  | StopState.Clean =>
    (Except.ok ("Channel " ++ channel ++ " stopped cleanly."), r.2)

/-- rpc_stop_channel(channel): dispatches to rpc_rm_channel with a None
timeout (wait indefinitely). -/
def rpc_stop_channel (s : DEServer) (channel : String) :
    Except PyErr String × DEServer :=
  rpc_rm_channel s channel Option.none

/-- rpc_kill_channel(channel, timeout=None): a None timeout is replaced
by the configured shutdown_timeout (default 10) before dispatching to
rpc_rm_channel. -/
def rpc_kill_channel (s : DEServer) (channel : String) (t : Option Nat) :
    Except PyErr String × DEServer :=
  let t1 := match t with
    | Option.none => s.shutdownTimeout.getD 10
    | some v => v
  rpc_rm_channel s channel (some t1)

/-- The channel worker constructed by start_channel, as the registry holds
it once `worker.start()` has run: a fresh process (alive, no exit code),
subscribed to the routing keys of its sources.  The process-dynamic fields
`exitAfterJoin`, `loglevel` and `produces` are environment abstractions of
the spawned TaskManager and are irrelevant to the start path. -/
def newChannelWorker (routing_keys : List String) : Worker :=
  { alive := true, exitcode := Option.none, exitAfterJoin := Option.none,
    routing_keys := routing_keys, loglevel := 20, produces := [] }

/-- The source-starting loop of start_channel: skip sources that are
alive; raise RuntimeError at the first source whose exit code is 0 (the
SourceAlreadyCompleted condition), naming the source and the channel;
start every other source.  Returns the keys of the sources started, in
order, and the error message when the loop raised. -/
def startSources (channel : String) : List SrcWorker → List String × Option String
  | [] => ([], Option.none)
  | w :: rest =>
    if w.alive then startSources channel rest
    else if w.exitcode = some 0 then
      ([], some ("The " ++ w.key ++ " source has already completed and cannot be used by channel "
        ++ channel ++ "."))
    else
      let r := startSources channel rest
      (w.key :: r.1, r.2)

/-- start_channel(channel_name, channel_config): honor the optional
channel_name override, pop the sources, run the source-registry update and
the workflow validator, insert the channel worker into the registry, start
it, wait_while BOOT, start the not-yet-alive sources (raising on an
already-completed one), and wait_while ACTIVE.  The returned state keeps
the mutations performed before a raise (Python dict mutations survive the
exception); the event list records the registry insertion, the worker
start, the waits and each source start, in execution order. -/
def start_channel (s : DEServer) (channel_name : String) (cfg : ChannelConfig) :
    Except String Unit × DEServer × List Ev :=
  let name := cfg.channel_name.getD channel_name
  let source_configs := cfg.sources
  let upd := s.sourceUpdate name source_configs s.source_workers
  match s.validateWorkflow name upd.2 cfg with
  | Except.error e => (Except.error e, { s with source_workers := upd.1 }, [])
  | Except.ok _ =>
    let worker := newChannelWorker (upd.2.map SrcWorker.key)
    let workers1 := assocSet s.channel_workers name worker
    let s1 := { s with channel_workers := workers1, source_workers := upd.1 }
    let pre : List Ev := [Ev.insertChannel name, Ev.startWorker name, Ev.waitWhile name ChState.BOOT]
    let loop := startSources name upd.2
    let srcEvs := loop.1.map Ev.startSource
    match loop.2 with
    | some msg => (Except.error msg, s1, pre ++ srcEvs)
    | Option.none =>
      (Except.ok (), s1, pre ++ srcEvs ++ [Ev.waitWhile name ChState.ACTIVE])

/-- The sequential loop of start_channels: one start_channel call at a
time, threading the state; a raising call is caught, its message is logged
(recorded here in the per-channel log next to the name), and the loop
continues with the next configured channel. -/
def startChannelsLoop (s : DEServer) :
    List (String × ChannelConfig) → DEServer × List (String × Option String)
  | [] => (s, [])
  | (name, cfg) :: rest =>
    let r := start_channel s name cfg
    let entry : String × Option String :=
      (name, match r.1 with
        | Except.ok _ => Option.none
        | Except.error e => some e)
    let tailRes := startChannelsLoop r.2.1 rest
    (tailRes.1, entry :: tailRes.2)

/-- start_channels: iterates over the loaded channel configurations (the
`channelConfigs` field models the loader's map after load_all_channels)
strictly sequentially, logging and swallowing per-channel failures. -/
def start_channels (s : DEServer) : DEServer × List (String × Option String) :=
  startChannelsLoop s s.channelConfigs

/-- rpc_start_channel(channel_name): under the registry lock, reject a
name that is already registered; otherwise load this channel's config
(returning the loader's message on failure) and delegate to start_channel,
whose RuntimeError would propagate out of the RPC.  The event list records
the config load and the delegation. -/
def rpc_start_channel (s : DEServer) (channel_name : String) :
    Except PyErr String × DEServer × List RpcEv :=
  if (alookup s.channel_workers channel_name).isSome then
    (Except.ok ("ERROR, channel " ++ channel_name ++ " is running"), s, [])
  else
    match s.loadChannel channel_name with
    | Except.error result =>
      (Except.ok result, s, [RpcEv.loadChannelCfg channel_name])
    | Except.ok cfg =>
      let r := start_channel s channel_name cfg
      match r.1 with
      | Except.error e =>
        (Except.error (PyErr.runtimeError e), r.2.1,
          [RpcEv.loadChannelCfg channel_name, RpcEv.startChannelCall channel_name])
      | Except.ok _ =>
        (Except.ok ("OK"), r.2.1,
          [RpcEv.loadChannelCfg channel_name, RpcEv.startChannelCall channel_name])

/-- Modelled from the spec: the Countdown scoped deadline tracker
(decisionengine/framework/util/countdown.py is not under src/).  It is
constructed with `wait_up_to` (None meaning unbounded); `time_left` is the
remaining budget or None; leaving a scope subtracts the elapsed time from
the remaining budget, clamping at zero, so that once the budget is
exhausted further `time_left` reads return zero, not None. -/
structure Countdown where
  timeLeft : Option Nat
deriving DecidableEq

/-- One scope of a Countdown: subtract the elapsed time (truncated
subtraction clamps the budget at zero); an unbounded countdown stays
unbounded. -/
def countdownStep (c : Countdown) (elapsed : Nat) : Countdown :=
  { timeLeft := c.timeLeft.map (fun r => r - elapsed) }

/-- The per-worker loop of block_while: for each channel worker in the
snapshot, if alive, call `wait_while(state, countdown.time_left)` inside a
countdown scope.  The elapsed wall-clock time of each wait is an
environment input, consumed one entry per performed wait; the returned
trace records, in order, each wait_while call as the pair (channel name,
time_left passed to it). -/
def blockWhileLoop :
    List (String × Worker) → Countdown → List Nat → List (String × Option Nat)
  | [], _, _ => []
  | (name, w) :: rest, c, es =>
    if w.alive then
      (name, c.timeLeft) :: blockWhileLoop rest (countdownStep c (es.headD 0)) es.tail
    else blockWhileLoop rest c es

/-- block_while(state, timeout): with an empty channel-worker snapshot,
return "No active channels." without waiting; otherwise run the wait loop
under a single shared Countdown initialised with the timeout and return
the "No channels in ... state." message. -/
def block_while (s : DEServer) (state : ChState) (tmo : Option Nat)
    (elapsed : List Nat) : String × List (String × Option Nat) :=
  let workers := s.channel_workers
  if workers.isEmpty then ("No active channels.", [])
  else
    let countdown : Countdown := { timeLeft := tmo }
    ("No channels in " ++ stateRepr state ++ " state.",
      blockWhileLoop workers countdown elapsed)

/-- Python's `\w` word-character class restricted to the ASCII range
relevant to broker URLs: letters, digits and underscore. -/
def isWordChar (c : Char) : Bool :=
  c.isAlphanum || c = '_'

/-- re.search(r"(?P<backend>\w+)://.*", url) on the character list of the
URL: try each start position from the left; at a position beginning a
word-character run, the attempt succeeds exactly when the maximal run is
immediately followed by "://" (a shorter greedy backtrack would end on a
word character, never on a colon), and the backend group is that run.
The trailing ".*" always matches. -/
def reSearchBackend : List Char → Option (List Char)
  | [] => Option.none
  | c :: cs =>
    if isWordChar c then
      let run := (c :: cs).takeWhile isWordChar
      let rest := (c :: cs).dropWhile isWordChar
      if rest.take 3 = [':', '/', '/'] then some run
      else reSearchBackend cs
    else reSearchBackend cs

/-- The backend group of the regex search, as a string. -/
def pyMatchBackend (url : String) : Option String :=
  (reSearchBackend url.toList).map (fun l => String.mk l)

/-- _verify_redis_url(broker_url): raise unless the regex search finds a
backend group, then raise unless that backend is "redis". -/
def verify_redis_url (broker_url : String) : Except String Unit :=
  match pyMatchBackend broker_url with
  | Option.none =>
    Except.error ("Unsupported broker URL format \x27" ++ broker_url
      ++ "\x27\nSee https://docs.celeryproject.org/projects/kombu/en/stable/userguide/connections.html#urls")
  | some backend =>
    if backend = "redis" then Except.ok ()
    else Except.error ("Unsupported data-broker backend \x27" ++ backend
      ++ "\x27; only \x27redis\x27 is currently supported.")

/-- _verify_redis_server(broker_url): validate the URL shape, then ping
the broker; a failing ping (the environment input `pingOk = false`) is
converted to a RuntimeError. -/
def verify_redis_server (pingOk : Bool) (broker_url : String) : Except String Unit :=
  match verify_redis_url broker_url with
  | Except.error e => Except.error e
  | Except.ok _ =>
    if pingOk then Except.ok ()
    else Except.error ("A server with broker URL " ++ broker_url ++ " is not responding.")

/-- The claim-side reading of "the URL matches `<scheme>://<rest>`": the
scheme is everything before the first occurrence of "://" (None when the
URL has no "://" or an empty scheme).  This definition follows the spec's
words, for comparison with the source-derived `verify_redis_url`. -/
def schemeSplit : List Char → Option (List Char)
  | [] => Option.none
  | c :: cs =>
    if (c :: cs).take 3 = [':', '/', '/'] then some []
    else (schemeSplit cs).map (fun l => c :: l)

/-- The scheme of a URL under the claim's `<scheme>://<rest>` reading, as
a string; None when the URL does not parse in that shape. -/
def specSchemeOf (url : String) : Option String :=
  match schemeSplit url.toList with
  | Option.none => Option.none
  | some [] => Option.none
  | some l => some (String.mk l)

/-- The --port argument handling of parse_program_options:
`type=int, default=8888, choices=range(1, 65535)` — an omitted argument
yields the default, a supplied value is accepted exactly when it lies in
the half-open interval [1, 65535), and argparse rejects any other value
with an invalid-choice error. -/
def parsePortOption (a : Option Int) : Except String Int :=
  match a with
  | Option.none => Except.ok 8888
  | some p =>
    if 1 ≤ p ∧ p < 65535 then Except.ok p
    else Except.error ("argument --port: invalid choice: " ++ toString p)

/-- The claim-side reading of the CLI range "1..65535" (inclusive). -/
def specPortInRange (p : Int) : Prop :=
  1 ≤ p ∧ p ≤ 65535

instance (p : Int) : Decidable (specPortInRange p) := by
  unfold specPortInRange
  infer_instance

/-- A channel worker that was never started: not alive and without an
exit code. -/
def deadWorker : Worker :=
  { alive := false, exitcode := Option.none, exitAfterJoin := Option.none,
    routing_keys := [], loglevel := 20, produces := [] }

/-- A running channel worker that survives a take_offline/join phase
(its exit code stays None after the join). -/
def liveWorker : Worker :=
  { alive := true, exitcode := Option.none, exitAfterJoin := Option.none,
    routing_keys := [], loglevel := 20, produces := [("modA", ["prodA"])] }

/-- A server with empty registries and inert collaborators, used as the
base of the concrete states below. -/
def emptyServer : DEServer :=
  { channel_workers := [], source_workers := [],
    sourceUpdate := fun _ _ reg => (reg, []),
    validateWorkflow := fun _ _ _ => Except.ok (),
    pruneFn := fun _ _ reg => reg,
    loadChannel := fun _ => Except.error ("Failed to open channel configuration file"),
    channelConfigs := [],
    renderProduct := fun _ _ _ _ _ _ => "",
    shutdownTimeout := Option.none }

/-- A server with one live channel, alpha. -/
def serverOneLive : DEServer :=
  { emptyServer with channel_workers := [("alpha", liveWorker)] }

/-- A server with a live channel alpha and a never-started channel omega. -/
def serverLiveDead : DEServer :=
  { emptyServer with channel_workers := [("alpha", liveWorker), ("omega", deadWorker)] }

/-- A shared source worker that exited with a failure and can be
restarted. -/
def srcRestartable : SrcWorker :=
  { key := "srcA", alive := false, exitcode := some 1 }

/-- A server whose source-registry update hands start_channel one
restartable source worker. -/
def serverOneSource : DEServer :=
  { emptyServer with sourceUpdate := fun _ _ reg => (reg, [srcRestartable]) }

/-- A minimal channel configuration without a channel_name override. -/
def cfgPlain : ChannelConfig :=
  { channel_name := Option.none, sources := ["srcA-config"], rest := "" }

/-- A shared one-shot source worker that has already completed (exit
code 0). -/
def srcCompleted : SrcWorker :=
  { key := "s2", alive := false, exitcode := some 0 }

/-- A source-worker list with a restartable source ahead of a completed
one. -/
def srcsMixed : List SrcWorker :=
  [{ key := "s1", alive := false, exitcode := some 1 }, srcCompleted]

/-- The first component of stop_worker, as a function of the exit code
observed after the conditional offline/join phase. -/
theorem stop_worker_fst (w : Worker) (t : Option Nat) :
    (stop_worker w t).1
      = if postJoinExit w = Option.none then StopState.Terminated else StopState.Clean := by
  cases hw : w.alive with
  | true =>
    cases hj : w.exitAfterJoin <;> simp [stop_worker, postJoinExit, hw, hj]
  | false =>
    cases he : w.exitcode <;> simp [stop_worker, postJoinExit, hw, he]

/-- C10: a channel worker that is not alive and has no exit code (for
example one that was never started) is handled by stop_worker without
take_offline or join: the only action is terminate() and the result is
Terminated — so Terminated does not imply that a shutdown timeout
elapsed — and in general stop_worker returns Clean exactly when the
worker's exit code after the conditional offline/join phase is non-nil. -/
theorem stop_worker_terminated_clean :
    (∀ (w : Worker) (t : Option Nat), w.alive = false → w.exitcode = Option.none →
      stop_worker w t = (StopState.Terminated, [StopAction.terminate]))
  ∧ (∀ (w : Worker) (t : Option Nat),
      (stop_worker w t).1 = StopState.Clean ↔ postJoinExit w ≠ Option.none) := by
  constructor
  · intro w t ha he
    simp [stop_worker, ha, he]
  · intro w t
    rw [stop_worker_fst]
    by_cases h : postJoinExit w = Option.none <;> simp [h]

/-- Witness for C10: stopping a never-started worker with a 5-second
budget terminates it outright. -/
theorem stop_worker_terminated_clean_witness :
    deadWorker.alive = false ∧ deadWorker.exitcode = Option.none ∧
      stop_worker deadWorker (some 5) = (StopState.Terminated, [StopAction.terminate]) :=
  ⟨rfl, rfl, stop_worker_terminated_clean.1 deadWorker (some 5) rfl rfl⟩

/-- C1: rpc_stop_channel dispatches to rpc_rm_channel with a nil timeout,
rpc_kill_channel without a timeout dispatches to rpc_rm_channel with the
configured shutdown_timeout (default 10), and rpc_rm_channel renders a
NotFound result as "No channel found with the name ...", a Clean result
as "... stopped cleanly.", and a Terminated result under a positive
timeout T as the shutdown-timeout kill message, pluralising "second"
exactly when T exceeds 1. -/
theorem rpc_channel_removal_messages :
    (∀ (s : DEServer) (ch : String),
        rpc_stop_channel s ch = rpc_rm_channel s ch Option.none)
  ∧ (∀ (s : DEServer) (ch : String),
        rpc_kill_channel s ch Option.none
          = rpc_rm_channel s ch (some (s.shutdownTimeout.getD 10)))
  ∧ (∀ (s : DEServer) (ch : String) (t : Option Nat),
        alookup s.channel_workers ch = Option.none →
        (rpc_rm_channel s ch t).1
          = Except.ok ("No channel found with the name " ++ ch ++ "."))
  ∧ (∀ (s : DEServer) (ch : String) (t : Option Nat) (w : Worker),
        alookup s.channel_workers ch = some w →
        (stop_worker w t).1 = StopState.Clean →
        (rpc_rm_channel s ch t).1
          = Except.ok ("Channel " ++ ch ++ " stopped cleanly."))
  ∧ (∀ (s : DEServer) (ch : String) (t : Nat) (w : Worker),
        alookup s.channel_workers ch = some w →
        (stop_worker w (some t)).1 = StopState.Terminated →
        0 < t →
        (rpc_rm_channel s ch (some t)).1
          = Except.ok ("Channel " ++ ch ++ " has been killed due to shutdown timeout ("
              ++ toString t ++ " second" ++ (if 1 < t then "s" else "") ++ ").")) := by
  refine ⟨fun s ch => rfl, fun s ch => rfl, ?_, ?_, ?_⟩
  · intro s ch t h
    simp [rpc_rm_channel, rm_channel, h]
  · intro s ch t w h hclean
    simp [rpc_rm_channel, rm_channel, h, hclean]
  · intro s ch t w h hterm ht
    match t, ht with
    | Nat.succ n, _ =>
      simp [rpc_rm_channel, rm_channel, h, hterm]

/-- Witness for C1: killing the live channel alpha under a 2-second
timeout that it does not meet yields the plural kill message. -/
theorem rpc_channel_removal_messages_witness :
    alookup serverOneLive.channel_workers ("alpha") = some liveWorker
  ∧ (stop_worker liveWorker (some 2)).1 = StopState.Terminated
  ∧ (0 : Nat) < 2
  ∧ (rpc_rm_channel serverOneLive ("alpha") (some 2)).1
      = Except.ok ("Channel " ++ "alpha" ++ " has been killed due to shutdown timeout ("
          ++ toString (2 : Nat) ++ " second" ++ (if 1 < (2 : Nat) then "s" else "") ++ ").") :=
  ⟨rfl, rfl, by decide,
    rpc_channel_removal_messages.2.2.2.2 serverOneLive ("alpha") 2 liveWorker rfl rfl (by decide)⟩

/-- The event trace of start_channel is either empty (the workflow
validator raised before the registry insertion) or begins with the
registry insertion, the worker start and the BOOT wait, in that order. -/
theorem start_channel_trace_shape (s : DEServer) (name : String) (cfg : ChannelConfig) :
    (start_channel s name cfg).2.2 = []
  ∨ ∃ tl, (start_channel s name cfg).2.2
      = Ev.insertChannel (cfg.channel_name.getD name)
        :: Ev.startWorker (cfg.channel_name.getD name)
        :: Ev.waitWhile (cfg.channel_name.getD name) ChState.BOOT :: tl := by
  simp only [start_channel]
  split
  · left; rfl
  · split
    · right; exact ⟨_, rfl⟩
    · right; exact ⟨_, rfl⟩

/-- C3: in every execution of start_channel, every source-worker start
event in the trace occurs strictly after the channel worker has been
inserted into the registry, started, and waited on out of BOOT: whenever
some source start appears at position i, the first three events are
exactly the insertion, the start and the BOOT wait, and i is at least 3. -/
theorem start_channel_listener_first :
    ∀ (s : DEServer) (name : String) (cfg : ChannelConfig) (i : Nat) (k : String),
      (start_channel s name cfg).2.2.get? i = some (Ev.startSource k) →
      (start_channel s name cfg).2.2.take 3
          = [Ev.insertChannel (cfg.channel_name.getD name),
             Ev.startWorker (cfg.channel_name.getD name),
             Ev.waitWhile (cfg.channel_name.getD name) ChState.BOOT]
        ∧ 3 ≤ i := by
  intro s name cfg i k h
  rcases start_channel_trace_shape s name cfg with hsh | ⟨tl, hsh⟩
  · rw [hsh] at h; simp at h
  · rw [hsh] at h ⊢
    refine ⟨rfl, ?_⟩
    rcases i with _ | _ | _ | i
    · simp at h
    · simp at h
    · simp at h
    · omega

/-- Witness for C3: with one not-yet-alive source, the source start sits
at position 3, after the insertion, the start and the BOOT wait. -/
theorem start_channel_listener_first_witness :
    (start_channel serverOneSource ("chan") cfgPlain).2.2.get? 3
        = some (Ev.startSource ("srcA"))
  ∧ ((start_channel serverOneSource ("chan") cfgPlain).2.2.take 3
        = [Ev.insertChannel (cfgPlain.channel_name.getD ("chan")),
           Ev.startWorker (cfgPlain.channel_name.getD ("chan")),
           Ev.waitWhile (cfgPlain.channel_name.getD ("chan")) ChState.BOOT]
      ∧ 3 ≤ 3) :=
  ⟨rfl, start_channel_listener_first serverOneSource ("chan") cfgPlain 3 ("srcA") rfl⟩

/-- C4: handling of shared source workers during start_channel.  When no
not-alive source has exit code 0, the source loop raises nothing and
starts exactly the not-alive sources; when some not-alive source has exit
code 0 (the distinct keys of the src_workers mapping assumed), the
operation fails with the RuntimeError naming an already-completed source
and the channel, and no already-completed source is started; and a
message raised by the source loop is the error start_channel reports to
its caller. -/
theorem start_channel_completed_source_handling :
    (∀ (channel : String) (srcs : List SrcWorker),
        (∀ w ∈ srcs, w.alive = false → w.exitcode ≠ some 0) →
        (startSources channel srcs).2 = Option.none
        ∧ (startSources channel srcs).1
            = (srcs.filter (fun w => !w.alive)).map SrcWorker.key)
  ∧ (∀ (channel : String) (srcs : List SrcWorker),
        (srcs.map SrcWorker.key).Nodup →
        ∀ w ∈ srcs, w.alive = false → w.exitcode = some 0 →
          (∃ c ∈ srcs, c.alive = false ∧ c.exitcode = some 0 ∧
            (startSources channel srcs).2
              = some ("The " ++ c.key
                  ++ " source has already completed and cannot be used by channel "
                  ++ channel ++ "."))
          ∧ w.key ∉ (startSources channel srcs).1)
  ∧ (∀ (s : DEServer) (name : String) (cfg : ChannelConfig) (msg : String),
        s.validateWorkflow (cfg.channel_name.getD name)
          (s.sourceUpdate (cfg.channel_name.getD name) cfg.sources s.source_workers).2 cfg
            = Except.ok ()
        → (startSources (cfg.channel_name.getD name)
            (s.sourceUpdate (cfg.channel_name.getD name) cfg.sources s.source_workers).2).2
            = some msg
        → (start_channel s name cfg).1 = Except.error msg) := by
  refine ⟨?_, ?_, ?_⟩
  · intro channel srcs
    induction srcs with
    | nil => intro _; simp [startSources]
    | cons a rest ih =>
      intro h
      have ha := h a (List.mem_cons_self a rest)
      have hrest := ih (fun w hw => h w (List.mem_cons_of_mem a hw))
      cases haa : a.alive with
      | true => simpa [startSources, haa] using hrest
      | false =>
        have hae : a.exitcode ≠ some 0 := ha haa
        simp [startSources, haa, hae, hrest.1, hrest.2]
  · intro channel srcs
    induction srcs with
    | nil => intro _ w hw; simp at hw
    | cons a rest ih =>
      intro hnd w hw ha he
      have hndt : (rest.map SrcWorker.key).Nodup := (List.nodup_cons.mp hnd).2
      have hknot : a.key ∉ rest.map SrcWorker.key := (List.nodup_cons.mp hnd).1
      cases haa : a.alive with
      | true =>
        have hwr : w ∈ rest := by
          rcases List.mem_cons.mp hw with hwa | hwr
          · rw [hwa] at ha; rw [ha] at haa; cases haa
          · exact hwr
        obtain ⟨⟨c, hc, hc1, hc2, hc3⟩, hnin⟩ := ih hndt w hwr ha he
        refine ⟨⟨c, List.mem_cons_of_mem a hc, hc1, hc2, ?_⟩, ?_⟩
        · simpa [startSources, haa] using hc3
        · simpa [startSources, haa] using hnin
      | false =>
        by_cases hae : a.exitcode = some 0
        · refine ⟨⟨a, List.mem_cons_self a rest, haa, hae, ?_⟩, ?_⟩
          · simp [startSources, haa, hae]
          · simp [startSources, haa, hae]
        · have hwr : w ∈ rest := by
            rcases List.mem_cons.mp hw with hwa | hwr
            · rw [hwa] at he; exact absurd he hae
            · exact hwr
          obtain ⟨⟨c, hc, hc1, hc2, hc3⟩, hnin⟩ := ih hndt w hwr ha he
          refine ⟨⟨c, List.mem_cons_of_mem a hc, hc1, hc2, ?_⟩, ?_⟩
          · simpa [startSources, haa, hae] using hc3
          · have hwk : w.key ≠ a.key := by
              intro hk
              exact hknot (hk ▸ List.mem_map_of_mem SrcWorker.key hwr)
            simp [startSources, haa, hae, hwk, hnin]
  · intro s name cfg msg hv hl
    simp only [start_channel]
    rw [hv]
    simp only []
    rw [hl]

/-- Witness for C4: with a restartable source ahead of an
already-completed one, the loop raises the SourceAlreadyCompleted message
and the completed source is not among the started keys. -/
theorem start_channel_completed_source_handling_witness :
    (srcsMixed.map SrcWorker.key).Nodup
  ∧ srcCompleted ∈ srcsMixed
  ∧ srcCompleted.alive = false
  ∧ srcCompleted.exitcode = some 0
  ∧ ((∃ c ∈ srcsMixed, c.alive = false ∧ c.exitcode = some 0 ∧
        (startSources ("chan") srcsMixed).2
          = some ("The " ++ c.key
              ++ " source has already completed and cannot be used by channel "
              ++ "chan" ++ "."))
      ∧ srcCompleted.key ∉ (startSources ("chan") srcsMixed).1) :=
  ⟨by decide, by decide, rfl, rfl,
    start_channel_completed_source_handling.2.1 ("chan") srcsMixed (by decide)
      srcCompleted (by decide) rfl rfl⟩

/-- The per-channel log of the start_channels loop lists exactly the
configured channel names, in order, for any starting state. -/
theorem startChannelsLoop_names :
    ∀ (l : List (String × ChannelConfig)) (s : DEServer),
      ((startChannelsLoop s l).2).map Prod.fst = l.map Prod.fst := by
  intro l
  induction l with
  | nil => intro s; rfl
  | cons p rest ih =>
    intro s
    simp [startChannelsLoop, ih]

/-- C5: start_channels attempts every configured channel exactly once,
strictly in configuration order, threading the state through one
start_channel call at a time; a raising start_channel call is caught into
the per-channel log entry and never shortens the batch — the log's names
always equal the configured names. -/
theorem start_channels_sequential_resilient :
    ∀ s : DEServer,
      ((start_channels s).2).map Prod.fst = s.channelConfigs.map Prod.fst
      ∧ ((start_channels s).2).length = s.channelConfigs.length := by
  intro s
  have h := startChannelsLoop_names s.channelConfigs s
  refine ⟨h, ?_⟩
  have h2 := congrArg List.length h
  simpa using h2

/-- C6: rpc_start_channel on a name already present in the channel
registry returns exactly the "ERROR, channel ... is running" message,
performs no configuration load (the event trace is empty), and leaves the
server — in particular the channel registry — unchanged, so pairwise
distinct registry names stay pairwise distinct. -/
theorem rpc_start_channel_already_running :
    ∀ (s : DEServer) (name : String),
      (alookup s.channel_workers name).isSome = true →
      rpc_start_channel s name
          = (Except.ok ("ERROR, channel " ++ name ++ " is running"), s, [])
        ∧ ((s.channel_workers.map Prod.fst).Nodup →
            (((rpc_start_channel s name).2.1.channel_workers).map Prod.fst).Nodup) := by
  intro s name h
  refine ⟨by simp [rpc_start_channel, h], ?_⟩
  intro hnd
  simpa [rpc_start_channel, h] using hnd

/-- Witness for C6: a second start of the running channel alpha is
rejected with the exact message and the state is untouched. -/
theorem rpc_start_channel_already_running_witness :
    (alookup serverOneLive.channel_workers ("alpha")).isSome = true
  ∧ rpc_start_channel serverOneLive ("alpha")
      = (Except.ok ("ERROR, channel " ++ "alpha" ++ " is running"), serverOneLive, []) :=
  ⟨rfl, (rpc_start_channel_already_running serverOneLive ("alpha") rfl).1⟩

/-- The wait_while trace of the block_while loop covers exactly the alive
channel workers, in snapshot order. -/
theorem blockWhileLoop_names :
    ∀ (l : List (String × Worker)) (c : Countdown) (es : List Nat),
      (blockWhileLoop l c es).map Prod.fst
        = (l.filter (fun p => p.2.alive)).map Prod.fst := by
  intro l
  induction l with
  | nil => intro c es; rfl
  | cons p rest ih =>
    intro c es
    cases hp : p.2.alive with
    | true => simp [blockWhileLoop, hp, ih]
    | false => simp [blockWhileLoop, hp, ih]

/-- Under an exhausted countdown every wait_while call of the block_while
loop is passed a zero budget. -/
theorem blockWhileLoop_zero :
    ∀ (l : List (String × Worker)) (c : Countdown) (es : List Nat),
      c.timeLeft = some 0 → ∀ e ∈ blockWhileLoop l c es, e.2 = some 0 := by
  intro l
  induction l with
  | nil => intro c es _ e he; simp [blockWhileLoop] at he
  | cons p rest ih =>
    intro c es hc e he
    cases hp : p.2.alive with
    | true =>
      simp [blockWhileLoop, hp] at he
      rcases he with he | he
      · rw [he]; exact hc
      · exact ih _ es.tail (by simp [countdownStep, hc]) e he
    | false =>
      simp [blockWhileLoop, hp] at he
      exact ih c es hc e he

/-- C7: block_while returns "No active channels." without waiting when
the channel snapshot is empty; otherwise it performs one wait_while per
alive channel worker, in snapshot order, under the single shared
Countdown, and returns the "No channels in ... state." message; and with
a zero timeout every wait_while receives a zero budget, so the call
returns without blocking. -/
theorem block_while_spec :
    ∀ (s : DEServer) (st : ChState) (tmo : Option Nat) (es : List Nat),
      (s.channel_workers = [] → block_while s st tmo es = ("No active channels.", []))
    ∧ (s.channel_workers ≠ [] →
        (block_while s st tmo es).1 = "No channels in " ++ stateRepr st ++ " state."
        ∧ ((block_while s st tmo es).2).map Prod.fst
            = (s.channel_workers.filter (fun p => p.2.alive)).map Prod.fst)
    ∧ (∀ e ∈ (block_while s st (some 0) es).2, e.2 = some 0) := by
  intro s st tmo es
  refine ⟨?_, ?_, ?_⟩
  · intro h
    simp [block_while, h]
  · intro h
    have hne : s.channel_workers.isEmpty = false := by
      cases hw : s.channel_workers with
      | nil => exact absurd hw h
      | cons a l => rfl
    constructor
    · simp [block_while, hne]
    · simp [block_while, hne, blockWhileLoop_names]
  · intro e he
    by_cases h : s.channel_workers.isEmpty
    · simp [block_while, h] at he
    · have hne : s.channel_workers.isEmpty = false := by
        cases hx : s.channel_workers.isEmpty with
        | true => exact absurd hx h
        | false => rfl
      simp [block_while, hne] at he
      exact blockWhileLoop_zero s.channel_workers { timeLeft := some 0 } es rfl e he

/-- Witness for C7: on a snapshot with one alive and one dead channel and
a zero timeout, the message is returned, alpha is the one channel waited
on, and its wait receives a zero budget. -/
theorem block_while_spec_witness :
    serverLiveDead.channel_workers ≠ []
  ∧ (block_while serverLiveDead ChState.BOOT (some 0) []).1
      = "No channels in " ++ stateRepr ChState.BOOT ++ " state."
  ∧ (("alpha", (some 0 : Option Nat)) ∈ (block_while serverLiveDead ChState.BOOT (some 0) []).2)
  ∧ (("alpha", (some 0 : Option Nat)) : String × Option Nat).2 = some 0 :=
  ⟨by decide,
    ((block_while_spec serverLiveDead ChState.BOOT (some 0) []).2.1 (by decide)).1,
    by decide,
    (block_while_spec serverLiveDead ChState.BOOT (some 0) []).2.2
      ("alpha", (some 0 : Option Nat)) (by decide)⟩

/-- The source-derived URL check accepts exactly the URLs whose regex
search finds a first word-character run immediately followed by "://"
equal to "redis". -/
theorem verify_url_ok_iff (url : String) :
    verify_redis_url url = Except.ok () ↔ pyMatchBackend url = some ("redis") := by
  unfold verify_redis_url
  cases h : pyMatchBackend url with
  | none => simp [h]
  | some b =>
    by_cases hb : b = "redis" <;> simp [h, hb]

/-- Counterexample to C8: the URL "x-redis://localhost" has scheme
"x-redis" under the claimed `<scheme>://<rest>` parse — a scheme other
than "redis" — yet startup validation accepts it, because re.search finds
the word-run "redis" later in the string. -/
theorem verify_redis_url_scheme_counterexample :
    specSchemeOf ("x-redis://localhost") = some ("x-redis")
  ∧ ("x-redis" : String) ≠ ("redis" : String)
  ∧ verify_redis_url ("x-redis://localhost") = Except.ok () := by
  refine ⟨by decide, by decide, by decide⟩

/-- C8 as amended: broker-URL validation succeeds exactly when searching
the URL for a word-character run immediately followed by "://" finds such
a run and the first one found equals "redis" — so URLs whose scheme
contains non-word characters but ends in the word-run "redis" (such as
"x-redis://...") are accepted, while a URL with no word-run before "://"
or with a different first matching backend is rejected; server
verification additionally requires the liveness ping to succeed. -/
theorem verify_redis_url_search_semantics :
    (∀ url : String,
        verify_redis_url url = Except.ok () ↔ pyMatchBackend url = some ("redis"))
  ∧ (∀ (pingOk : Bool) (url : String),
        verify_redis_server pingOk url = Except.ok ()
          ↔ (pyMatchBackend url = some ("redis") ∧ pingOk = true)) := by
  refine ⟨fun url => verify_url_ok_iff url, ?_⟩
  intro pingOk url
  unfold verify_redis_server
  cases h : verify_redis_url url with
  | error e =>
    have hm : ¬ pyMatchBackend url = some ("redis") := by
      intro hm
      have := (verify_url_ok_iff url).mpr hm
      rw [h] at this
      cases this
    simp [hm]
  | ok u =>
    cases u
    have hm := (verify_url_ok_iff url).mp h
    cases pingOk <;> simp [hm]

/-- Counterexample to C9: 65535 lies in the claimed inclusive range
1..65535, but parse_program_options rejects it — the source passes
choices=range(1, 65535), a half-open interval. -/
theorem parse_port_65535_counterexample :
    specPortInRange 65535
  ∧ parsePortOption (some 65535)
      = Except.error ("argument --port: invalid choice: 65535") := by
  refine ⟨by decide, by decide⟩

/-- C9 as amended: --port defaults to 8888 when omitted and accepts
exactly the integers of the half-open interval [1, 65535) — 65534 is the
largest accepted port and 65535 is rejected. -/
theorem parse_port_half_open :
    parsePortOption Option.none = Except.ok 8888
  ∧ (∀ p : Int, parsePortOption (some p) = Except.ok p ↔ (1 ≤ p ∧ p < 65535)) := by
  refine ⟨rfl, ?_⟩
  intro p
  unfold parsePortOption
  by_cases h : 1 ≤ p ∧ p < 65535 <;> simp [h]

end DE
